import Mathlib

/-!
Verification of the `myi` live income tracker core (`src/myi/core.py`, with the
configuration loading of `src/myi/cli.py` and the session summary of
`src/myi/display.py`), shallowly embedded in Lean.

Modelling conventions:
* Python `Decimal` values and wall-clock timestamps are exact rationals (`ℚ`).
  `Decimal(str(x))` conversions between floats and decimals are the identity on
  this model.  The default `Decimal` context precision of 28 significant digits
  is abstracted away: division is exact and only the explicit
  `quantize(Decimal("0.0001"), ROUND_HALF_UP)` call rounds.
* Operations that Python `Decimal` can raise from (division by zero) return
  `Option`: `none` models a raised fault.
* Every region the source protects with `self._lock`, and each whole method
  call, is one atomic action of a small-step trace semantics
  (`TrackerAction` / `stepAction` / `runTrace`); interleavings of the worker
  loop with reader threads are traces of such actions.
* The worker thread objects themselves are summarised by `threads`, the number
  of background workers that have been spawned (and, being daemon loops on the
  shared `_running` flag, are still alive while it stays true).
-/

namespace Myi

/-- `q.quantize(Decimal("0.0001"), rounding=ROUND_HALF_UP)`: round a decimal to
4 fractional digits, ties away from zero (Python's `ROUND_HALF_UP`). -/
def quantize4 (q : ℚ) : ℚ :=
  if 0 ≤ q then (⌊q * 10000 + 1 / 2⌋ : ℚ) / 10000
  else -((⌊-q * 10000 + 1 / 2⌋ : ℚ) / 10000)

/-- Python `Decimal` division: raises (here `none`) on a zero divisor. -/
def decDiv (a b : ℚ) : Option ℚ :=
  if b = 0 then none else some (a / b)

/-- `IncomeConfig` dataclass of `src/myi/core.py` (lines 8–16), with its
field defaults. -/
structure IncomeConfig where
  annual_salary : ℚ
  currency : String := "$"
  work_hours_per_day : ℚ := 8
  work_days_per_year : ℚ := 250
  side_income : ℚ := 0
  passive_income : ℚ := 0
deriving DecidableEq

/-- `IncomeConfig.total_annual` (core.py lines 18–20). -/
def IncomeConfig.total_annual (c : IncomeConfig) : ℚ :=
  c.annual_salary + c.side_income + c.passive_income

/-- `IncomeConfig.per_second` (core.py lines 22–27) with the fallible division
made explicit: the zero-divisor guard fires before any division, so the fault
branch of `decDiv` is unreachable. -/
def IncomeConfig.per_second? (c : IncomeConfig) : Option ℚ :=
  if c.work_hours_per_day * 3600 * c.work_days_per_year = 0 then some 0
  else
    (decDiv c.total_annual (c.work_hours_per_day * 3600 * c.work_days_per_year)).map
      quantize4

/-- The value `IncomeConfig.per_second` computes (core.py lines 22–27), with
the source's `total_seconds` local written out in place. -/
def IncomeConfig.per_second (c : IncomeConfig) : ℚ :=
  if c.work_hours_per_day * 3600 * c.work_days_per_year = 0 then 0
  else quantize4 (c.total_annual / (c.work_hours_per_day * 3600 * c.work_days_per_year))

/-- The configuration `(salary=50000, side=0, passive=0, hours=8, days=250)`
used by the spec's first testable property. -/
def config50k : IncomeConfig := { annual_salary := 50000 }

/-- The fixed sample configuration of the `demo` subcommand
(cli.py lines 110–118). -/
def demoConfig : IncomeConfig :=
  { annual_salary := 180000, side_income := 25000, passive_income := 5000 }

/-- A subscriber callback: invoked with `(value, elapsed)`; its Python return
value is discarded and it may raise (`Except.error`). -/
def Callback : Type := ℚ → ℚ → Except Unit Unit

/-- `IncomeTracker` of `src/myi/core.py` (lines 30–77).  `threads` counts the
worker threads spawned so far (the `_thread` handle plus any earlier workers it
replaced, all looping on the shared `_running` flag); `_lock` has no state of
its own — it is modelled by the atomicity of the actions below. -/
structure IncomeTracker where
  config : IncomeConfig
  accumulated : ℚ
  start_time : ℚ
  running : Bool
  threads : ℕ
  callbacks : List Callback

/-- `IncomeTracker.__init__` (core.py lines 33–40) at current time `now`. -/
def IncomeTracker.init (config : IncomeConfig) (now : ℚ) : IncomeTracker :=
  { config := config, accumulated := 0, start_time := now
    running := false, threads := 0, callbacks := [] }

/-- `IncomeTracker.start` (core.py lines 42–46): sets `_running`, re-baselines
`start_time`, and unconditionally creates and starts a fresh worker thread. -/
def IncomeTracker.start (t : IncomeTracker) (now : ℚ) : IncomeTracker :=
  { t with running := true, start_time := now, threads := t.threads + 1 }

/-- `IncomeTracker.stop` (core.py lines 48–51): clears `_running`; the bounded
`join` changes no tracker state. -/
def IncomeTracker.stop (t : IncomeTracker) : IncomeTracker :=
  { t with running := false }

/-- The subscriber-notification loop of `IncomeTracker._track_loop`
(core.py lines 58–62): each callback is invoked with the tick's
`(accumulated, elapsed)` inside `try: ... except Exception: pass`, so both the
normal and the raising outcome fall through to the next callback.  The result
records, per callback in order, the arguments it received and its outcome. -/
def notifyAll : List Callback → ℚ → ℚ → List ((ℚ × ℚ) × Except Unit Unit)
  | [], _, _ => []
  | cb :: rest, v, e =>
    match cb v e with
    | Except.ok u => ((v, e), Except.ok u) :: notifyAll rest v e
    | Except.error ex => ((v, e), Except.error ex) :: notifyAll rest v e

/-- One iteration of `IncomeTracker._track_loop` (core.py lines 53–63) at
current time `now`: recompute `accumulated` from elapsed time under the lock,
then notify every subscriber.  Returns the new state and the notification
record. -/
def IncomeTracker.tick (t : IncomeTracker) (now : ℚ) :
    IncomeTracker × List ((ℚ × ℚ) × Except Unit Unit) :=
  let elapsed := now - t.start_time
  let t2 := { t with accumulated := elapsed * t.config.per_second }
  (t2, notifyAll t2.callbacks t2.accumulated elapsed)

/-- `IncomeTracker.get_current` (core.py lines 65–69): under the lock, read the
clock once and compute the `(value, elapsed)` pair from that single reading. -/
def IncomeTracker.get_current (t : IncomeTracker) (now : ℚ) : ℚ × ℚ :=
  let elapsed := now - t.start_time
  (elapsed * t.config.per_second, elapsed)

/-- `IncomeTracker.on_update` (core.py lines 71–72). -/
def IncomeTracker.on_update (t : IncomeTracker) (cb : Callback) : IncomeTracker :=
  { t with callbacks := t.callbacks ++ [cb] }

/-- `IncomeTracker.reset` (core.py lines 74–77): under the lock, re-baseline
`start_time` and zero `accumulated`; nothing else changes. -/
def IncomeTracker.reset (t : IncomeTracker) (now : ℚ) : IncomeTracker :=
  { t with start_time := now, accumulated := 0 }

/-- Atomic actions on one tracker.  Each lock-protected region (a loop tick's
publish, `get_current`, `reset`) and each lifecycle call is a single action;
an interleaving of the worker thread with other threads is a list of them. -/
inductive TrackerAction where
  | startAt (now : ℚ)
  | stopAt
  | tickAt (now : ℚ)
  | resetAt (now : ℚ)
  | readAt (now : ℚ)

/-- Apply one atomic action; `readAt` emits the `(value, elapsed)` pair the
caller of `get_current` observes, and a tick only fires while `_running`. -/
def stepAction (t : IncomeTracker) : TrackerAction → IncomeTracker × List (ℚ × ℚ)
  | TrackerAction.startAt now => (t.start now, [])
  | TrackerAction.stopAt => (t.stop, [])
  | TrackerAction.tickAt now => (if t.running then (t.tick now).1 else t, [])
  | TrackerAction.resetAt now => (t.reset now, [])
  | TrackerAction.readAt now => (t, [t.get_current now])

/-- Run an interleaving of atomic actions, collecting every snapshot pair
observed by a `get_current` caller. -/
def runTrace : IncomeTracker → List TrackerAction → List (ℚ × ℚ)
  | _, [] => []
  | t, a :: rest => (stepAction t a).2 ++ runTrace (stepAction t a).1 rest

/-- The persisted configuration record read by `load_config`
(cli.py lines 15–19): a JSON object in which each of the four fields may be
absent. -/
structure SavedConfig where
  salary : Option ℚ
  currency : Option String
  side : Option ℚ
  passive : Option ℚ

/-- `get_default_config` (cli.py lines 28–35): build an `IncomeConfig` from
the persisted record, substituting `saved.get(key, default)` defaults for
absent fields (`Decimal(str(·))` is the identity on this model). -/
def get_default_config (saved : SavedConfig) : IncomeConfig :=
  { annual_salary := saved.salary.getD 50000
    currency := saved.currency.getD "$"
    side_income := saved.side.getD 0
    passive_income := saved.passive.getD 0 }

/-- The end-of-session per-hour figure of `MyiDisplay._show_summary`
(display.py lines 152–163): `final / Decimal(str(elapsed)) * 3600`, with the
division fallible exactly as in the source — there is no guard around it. -/
def show_summary_per_hour (final elapsed : ℚ) : Option ℚ :=
  (decDiv final elapsed).map (fun r => r * 3600)

/-- A tracker that is already running, with one worker spawned: the state
reached by `IncomeTracker.init config50k 0` followed by `start` at time 0. -/
def runningTracker : IncomeTracker :=
  { config := config50k, accumulated := 0, start_time := 0
    running := true, threads := 1, callbacks := [] }

/-! ## Helper lemmas -/

/-- Rounding a negative number half-up (away from zero) never yields a
positive result. -/
theorem quantize4_nonpos_of_neg (q : ℚ) (hq : q < 0) : quantize4 q ≤ 0 := by
  rw [quantize4, if_neg (not_le.mpr hq)]
  have h1 : (0 : ℚ) ≤ -q * 10000 + 1 / 2 := by nlinarith
  have h2 : (0 : ℤ) ≤ ⌊-q * 10000 + 1 / 2⌋ := Int.floor_nonneg.mpr h1
  have h3 : (0 : ℚ) ≤ (⌊-q * 10000 + 1 / 2⌋ : ℚ) / 10000 :=
    div_nonneg (by exact_mod_cast h2) (by norm_num)
  linarith

/-- No atomic action changes the tracker's configuration. -/
theorem stepAction_config (t : IncomeTracker) (a : TrackerAction) :
    (stepAction t a).1.config = t.config := by
  cases a with
  | startAt now => rfl
  | stopAt => rfl
  | tickAt now => cases hr : t.running <;> simp [stepAction, hr, IncomeTracker.tick]
  | resetAt now => rfl
  | readAt now => rfl

/-! ## Claim theorems -/

/-- Claim C2: the per-second rate equals
`(annualSalary + sideIncome + passiveIncome) / (workHoursPerDay × 3600 ×
workDaysPerYear)` rounded half-up to 4 fractional digits; a zero divisor
yields `0` with no fault raised; for `(50000, 0, 0, 8, 250)` the rate is
`0.0069`; and an exact half (`0.18 / 3600 = 0.00005`) rounds up to `0.0001`,
pinning the rounding mode to half-up. -/
theorem per_second_formula :
    (∀ c : IncomeConfig, c.work_hours_per_day * 3600 * c.work_days_per_year ≠ 0 →
      c.per_second = quantize4 ((c.annual_salary + c.side_income + c.passive_income) /
        (c.work_hours_per_day * 3600 * c.work_days_per_year))) ∧
    (∀ s : ℚ,
      ({ annual_salary := s, work_hours_per_day := 0 } : IncomeConfig).per_second? =
        some 0) ∧
    config50k.per_second = 69 / 10000 ∧
    ({ annual_salary := 9 / 50, work_hours_per_day := 1, work_days_per_year := 1 } :
      IncomeConfig).per_second = 1 / 10000 := by
  refine ⟨?_, ?_, ?_, ?_⟩
  · intro c h
    simp [IncomeConfig.per_second, IncomeConfig.total_annual, h]
  · intro s
    simp [IncomeConfig.per_second?]
  · norm_num [config50k, IncomeConfig.per_second, IncomeConfig.total_annual, quantize4]
  · norm_num [IncomeConfig.per_second, IncomeConfig.total_annual, quantize4]

/-- Witness for C2 at the concrete configuration `config50k`, whose divisor
`8 × 3600 × 250 = 7200000` is nonzero. -/
theorem per_second_formula_witness :
    config50k.per_second =
      quantize4 ((config50k.annual_salary + config50k.side_income +
        config50k.passive_income) /
        (config50k.work_hours_per_day * 3600 * config50k.work_days_per_year)) :=
  per_second_formula.1 config50k (by norm_num [config50k])

/-- Claim C8: the derived total annual figure is the sum of the three income
fields; the demo configuration `(180000, 25000, 5000)` totals `210000`. -/
theorem total_annual_sum :
    (∀ c : IncomeConfig,
      c.total_annual = c.annual_salary + c.side_income + c.passive_income) ∧
    demoConfig.total_annual = 210000 := by
  refine ⟨fun c => rfl, ?_⟩
  norm_num [demoConfig, IncomeConfig.total_annual]

/-- Claim C9: for every persisted record — any mix of present and absent
fields — each absent field of `salary`, `currency`, `side`, `passive` defaults
to `50000`, `"$"`, `0`, `0` respectively in the configuration built from it,
and each present field is carried through unchanged. -/
theorem config_defaults_for_absent_fields :
    (∀ saved : SavedConfig, saved.salary = none →
      (get_default_config saved).annual_salary = 50000) ∧
    (∀ (saved : SavedConfig) (v : ℚ), saved.salary = some v →
      (get_default_config saved).annual_salary = v) ∧
    (∀ saved : SavedConfig, saved.currency = none →
      (get_default_config saved).currency = "$") ∧
    (∀ (saved : SavedConfig) (v : String), saved.currency = some v →
      (get_default_config saved).currency = v) ∧
    (∀ saved : SavedConfig, saved.side = none →
      (get_default_config saved).side_income = 0) ∧
    (∀ (saved : SavedConfig) (v : ℚ), saved.side = some v →
      (get_default_config saved).side_income = v) ∧
    (∀ saved : SavedConfig, saved.passive = none →
      (get_default_config saved).passive_income = 0) ∧
    (∀ (saved : SavedConfig) (v : ℚ), saved.passive = some v →
      (get_default_config saved).passive_income = v) := by
  refine ⟨fun saved h => ?_, fun saved v h => ?_, fun saved h => ?_,
    fun saved v h => ?_, fun saved h => ?_, fun saved v h => ?_,
    fun saved h => ?_, fun saved v h => ?_⟩ <;>
    simp [get_default_config, h]

/-- Witness for C9 at two mixed records: one with `salary` and `side` present
but `currency` and `passive` absent, one with the complementary fields
present; together they exercise all eight per-field cases. -/
theorem config_defaults_for_absent_fields_witness :
    (get_default_config ⟨some 60000, none, some 1200, none⟩).annual_salary = 60000 ∧
    (get_default_config ⟨some 60000, none, some 1200, none⟩).currency = "$" ∧
    (get_default_config ⟨some 60000, none, some 1200, none⟩).side_income = 1200 ∧
    (get_default_config ⟨some 60000, none, some 1200, none⟩).passive_income = 0 ∧
    (get_default_config ⟨none, some "E", none, some 7⟩).annual_salary = 50000 ∧
    (get_default_config ⟨none, some "E", none, some 7⟩).currency = "E" ∧
    (get_default_config ⟨none, some "E", none, some 7⟩).side_income = 0 ∧
    (get_default_config ⟨none, some "E", none, some 7⟩).passive_income = 7 :=
  ⟨config_defaults_for_absent_fields.2.1 ⟨some 60000, none, some 1200, none⟩ 60000 rfl,
   config_defaults_for_absent_fields.2.2.1 ⟨some 60000, none, some 1200, none⟩ rfl,
   config_defaults_for_absent_fields.2.2.2.2.2.1 ⟨some 60000, none, some 1200, none⟩
     1200 rfl,
   config_defaults_for_absent_fields.2.2.2.2.2.2.1 ⟨some 60000, none, some 1200, none⟩
     rfl,
   config_defaults_for_absent_fields.1 ⟨none, some "E", none, some 7⟩ rfl,
   config_defaults_for_absent_fields.2.2.2.1 ⟨none, some "E", none, some 7⟩ "E" rfl,
   config_defaults_for_absent_fields.2.2.2.2.1 ⟨none, some "E", none, some 7⟩ rfl,
   config_defaults_for_absent_fields.2.2.2.2.2.2.2 ⟨none, some "E", none, some 7⟩
     7 rfl⟩

/-- Claim C6 (code bug): the end-of-session per-hour figure of
`_show_summary` divides by `elapsed` with no zero guard, so at
`elapsedSeconds = 0` it raises (modelled `none`) instead of reporting a
sentinel. -/
theorem summary_per_hour_faults_at_zero :
    show_summary_per_hour 0 0 = none ∧
    ∀ final : ℚ, show_summary_per_hour final 0 = none := by
  constructor
  · simp [show_summary_per_hour, decDiv]
  · intro final
    simp [show_summary_per_hour, decDiv]

/-- Claim C1: while running, a tick publishes
`accumulated = elapsedSeconds(startTime, now) × perSecondRate`, and the result
is independent of the previously accumulated value (recomputed, never
incremented); `get_current` at elapsed time `E ≥ 0` returns
`value = E × perSecondRate`; at `E = 10` with `config50k` the value is
`0.069`. -/
theorem accumulated_recomputed_from_elapsed :
    (∀ (t : IncomeTracker) (now x : ℚ), t.running = true →
      (t.tick now).1.accumulated = (now - t.start_time) * t.config.per_second ∧
      (IncomeTracker.tick { t with accumulated := x } now).1.accumulated =
        (t.tick now).1.accumulated) ∧
    (∀ (t : IncomeTracker) (E : ℚ), 0 ≤ E →
      (t.get_current (t.start_time + E)).1 = E * t.config.per_second) ∧
    ((IncomeTracker.init config50k 0).get_current 10).1 = 69 / 1000 := by
  refine ⟨?_, ?_, ?_⟩
  · intro t now x _
    exact ⟨rfl, rfl⟩
  · intro t E _
    simp [IncomeTracker.get_current]
  · norm_num [IncomeTracker.get_current, IncomeTracker.init, config50k,
      IncomeConfig.per_second, IncomeConfig.total_annual, quantize4]

/-- Witness for C1 at a concrete running tracker, with the previous
accumulated value replaced by `5`, and at `E = 10` from `start_time = 0`. -/
theorem accumulated_recomputed_from_elapsed_witness :
    ((runningTracker.tick 10).1.accumulated =
      (10 - runningTracker.start_time) * runningTracker.config.per_second) ∧
    ((IncomeTracker.tick { runningTracker with accumulated := 5 } 10).1.accumulated =
      (runningTracker.tick 10).1.accumulated) ∧
    ((IncomeTracker.init config50k 0).get_current
        ((IncomeTracker.init config50k 0).start_time + 10)).1 =
      10 * (IncomeTracker.init config50k 0).config.per_second :=
  ⟨(accumulated_recomputed_from_elapsed.1 runningTracker 10 5 rfl).1,
   (accumulated_recomputed_from_elapsed.1 runningTracker 10 5 rfl).2,
   accumulated_recomputed_from_elapsed.2.1 (IncomeTracker.init config50k 0) 10
     (by norm_num)⟩

/-- Counterexample to claim C3: on the already-running `runningTracker`,
`start` at time `5` changes the state — it re-baselines `start_time` from `0`
to `5` and spawns a second worker thread — so it is not a no-op. -/
theorem start_on_running_changes_state_cex :
    runningTracker.running = true ∧
    (runningTracker.start 5).threads = 2 ∧ runningTracker.threads = 1 ∧
    (runningTracker.start 5).start_time = 5 ∧ runningTracker.start_time = 0 :=
  ⟨rfl, rfl, rfl, rfl, rfl⟩

/-- Claim C3 as amended: calling `start()` on a tracker that is already
running keeps `running` true and leaves `accumulated`, the configuration and
the subscriber list unchanged, but re-baselines `start_time` to the current
time and spawns one additional background worker, so a second worker can
exist. -/
theorem start_on_running_respawns :
    ∀ (t : IncomeTracker) (now : ℚ), t.running = true →
      (t.start now).running = true ∧
      (t.start now).start_time = now ∧
      (t.start now).threads = t.threads + 1 ∧
      (t.start now).accumulated = t.accumulated ∧
      (t.start now).config = t.config ∧
      (t.start now).callbacks = t.callbacks :=
  fun _ _ _ => ⟨rfl, rfl, rfl, rfl, rfl, rfl⟩

/-- Witness for the amended C3 at the concrete running tracker. -/
theorem start_on_running_respawns_witness :
    (runningTracker.start 5).running = true ∧
    (runningTracker.start 5).start_time = 5 ∧
    (runningTracker.start 5).threads = runningTracker.threads + 1 ∧
    (runningTracker.start 5).accumulated = runningTracker.accumulated ∧
    (runningTracker.start 5).config = runningTracker.config ∧
    (runningTracker.start 5).callbacks = runningTracker.callbacks :=
  start_on_running_respawns runningTracker 5 rfl

/-- Claim C4: `reset` — one atomic action of the trace semantics — sets
`start_time` to the current time and `accumulated` to `0`, leaves the running
flag, worker count, subscriber list and configuration unchanged, and a
`get_current` immediately after (same instant) reports `(0, 0)`; likewise the
two-action trace reset-then-read observes exactly `(0, 0)`. -/
theorem reset_rebaselines :
    ∀ (t : IncomeTracker) (now : ℚ),
      (t.reset now).start_time = now ∧
      (t.reset now).accumulated = 0 ∧
      (t.reset now).running = t.running ∧
      (t.reset now).threads = t.threads ∧
      (t.reset now).callbacks = t.callbacks ∧
      (t.reset now).config = t.config ∧
      (t.reset now).get_current now = (0, 0) ∧
      runTrace t [TrackerAction.resetAt now, TrackerAction.readAt now] = [(0, 0)] := by
  intro t now
  refine ⟨rfl, rfl, rfl, rfl, rfl, rfl, ?_, ?_⟩
  · simp [IncomeTracker.get_current, IncomeTracker.reset]
  · simp [runTrace, stepAction, IncomeTracker.get_current, IncomeTracker.reset]

/-- Claim C5: during a tick, every subscriber callback — in registration
order — is invoked with that tick's `(value, elapsedSeconds)` and its outcome
is caught and discarded, regardless of which callbacks fault; a tick never
changes the `running` flag, so a faulting subscriber cannot terminate the
worker loop. -/
theorem subscriber_fault_isolated :
    (∀ (cbs : List Callback) (v e : ℚ),
      notifyAll cbs v e = cbs.map (fun cb => ((v, e), cb v e))) ∧
    (∀ (t : IncomeTracker) (now : ℚ), (t.tick now).1.running = t.running) := by
  constructor
  · intro cbs v e
    induction cbs with
    | nil => rfl
    | cons cb rest ih => cases h : cb v e <;> simp [notifyAll, h, ih]
  · intro t now
    rfl

/-- Claim C7: for every interleaving of atomic tracker actions (ticks, resets,
lifecycle calls and `get_current` reads), every `(value, elapsedSeconds)` pair
a reader observes satisfies `value = elapsedSeconds × perSecondRate` — the
pair is computed from a single clock reading inside one lock-protected
region, so it is never torn. -/
theorem snapshot_never_torn :
    ∀ (t : IncomeTracker) (acts : List TrackerAction) (p : ℚ × ℚ),
      p ∈ runTrace t acts → p.1 = p.2 * t.config.per_second := by
  intro t acts
  induction acts generalizing t with
  | nil =>
    intro p hp
    simp [runTrace] at hp
  | cons a rest ih =>
    intro p hp
    simp only [runTrace] at hp
    rcases List.mem_append.mp hp with h | h
    · cases a with
      | startAt now => simp [stepAction] at h
      | stopAt => simp [stepAction] at h
      | tickAt now => simp [stepAction] at h
      | resetAt now => simp [stepAction] at h
      | readAt now =>
        simp only [stepAction, List.mem_singleton] at h
        subst h
        rfl
    · have h2 := ih (stepAction t a).1 p h
      rwa [stepAction_config] at h2

/-- Witness for C7: in the trace start–tick–read on a fresh tracker with
`config50k`, the read at time `10` observes the pair `(0.069, 10)`, and
`0.069 = 10 × 0.0069`. -/
theorem snapshot_never_torn_witness :
    ((69 / 1000 : ℚ), (10 : ℚ)).1 =
      ((69 / 1000 : ℚ), (10 : ℚ)).2 * (IncomeTracker.init config50k 0).config.per_second :=
  snapshot_never_torn (IncomeTracker.init config50k 0)
    [TrackerAction.startAt 0, TrackerAction.tickAt 3, TrackerAction.readAt 10]
    (69 / 1000, 10)
    (by norm_num [runTrace, stepAction, IncomeTracker.init, IncomeTracker.start,
      IncomeTracker.tick, IncomeTracker.get_current, notifyAll, config50k,
      IncomeConfig.per_second, IncomeConfig.total_annual, quantize4])

/-- Counterexample to claim C10 as stated: for `annual_salary = -100` (total
annual `-100 < 0`, default hours and days) the per-second rate is `0`, not
negative — the exact quotient `-0.0000138…` rounds half-up to `-0.0000`. -/
theorem small_negative_total_rate_not_negative_cex :
    ({ annual_salary := -100 } : IncomeConfig).total_annual = -100 ∧
    ({ annual_salary := -100 } : IncomeConfig).total_annual < 0 ∧
    ({ annual_salary := -100 } : IncomeConfig).per_second = 0 ∧
    ¬ ({ annual_salary := -100 } : IncomeConfig).per_second < 0 := by
  refine ⟨?_, ?_, ?_, ?_⟩ <;>
    norm_num [IncomeConfig.total_annual, IncomeConfig.per_second, quantize4]

/-- Claim C10 as amended: the income model validates nothing — for every
configuration, negative incomes included, `per_second` returns a value and
never raises a fault (the fallible division is always guarded), a negative
total with a positive divisor yields a per-second rate `≤ 0` (zero when the
quotient's magnitude is below the half-up rounding threshold `0.00005`),
and for `annual_salary = -50000` the rate is the negative value `-0.0069`. -/
theorem income_model_total_no_validation :
    (∀ c : IncomeConfig, c.per_second? = some c.per_second) ∧
    (∀ c : IncomeConfig, c.total_annual < 0 →
      0 < c.work_hours_per_day * 3600 * c.work_days_per_year →
      c.per_second ≤ 0) ∧
    ({ annual_salary := -50000 } : IncomeConfig).total_annual = -50000 ∧
    ({ annual_salary := -50000 } : IncomeConfig).per_second = -(69 / 10000) := by
  refine ⟨?_, ?_, ?_, ?_⟩
  · intro c
    by_cases h : c.work_hours_per_day * 3600 * c.work_days_per_year = 0 <;>
      simp [IncomeConfig.per_second?, IncomeConfig.per_second, decDiv, h]
  · intro c hneg hpos
    rw [IncomeConfig.per_second, if_neg (ne_of_gt hpos)]
    exact quantize4_nonpos_of_neg _ (div_neg_of_neg_of_pos hneg hpos)
  · norm_num [IncomeConfig.total_annual]
  · norm_num [IncomeConfig.per_second, IncomeConfig.total_annual, quantize4]

/-- Witness for the amended C10 at `annual_salary = -50000`: its total is
negative, its divisor positive, and the theorem bounds its rate by `0`. -/
theorem income_model_total_no_validation_witness :
    ({ annual_salary := -50000 } : IncomeConfig).per_second ≤ 0 :=
  income_model_total_no_validation.2.1 { annual_salary := -50000 }
    (by norm_num [IncomeConfig.total_annual]) (by norm_num)

end Myi
